import Mathlib

/-!
Verification of the 4-digit number guessing game server (`app.py`, `config.py`).

The Python source is shallowly embedded: pure helpers become Lean functions,
the SQLite tables and in-memory registries become explicit record states, and
each Socket.IO handler becomes a state-transition function returning the new
state together with the list of emitted events.  Python `int` values stored in
the database are modelled as `Int`; digit strings as Lean `String` over ASCII.
-/

namespace GuessGame

/-! ## Configuration constants (`config.py`) -/

def DIGIT_COUNT : Nat := 4

def MIN_SECRET : Nat := 1000

def MAX_SECRET : Nat := 9999

def TURN_TIMEOUT_SECONDS : Int := 60

def ADMIN_RATE_LIMIT : Nat := 5

def ADMIN_KEY : String := "changeme"

/-! ## Validation (`validate_number`, `count_matches`) -/

/-- Base codepoints of the Unicode decimal-digit (Nd) blocks in the model.
Each block is ten consecutive codepoints encoding the digits 0..9; Python
`str.isdigit` accepts them and `int()` parses them by digit value.  ASCII
first, then Arabic-Indic, Extended Arabic-Indic, NKo, the Indic scripts,
Thai, Lao, Tibetan, Myanmar, Khmer, Mongolian and the other BMP blocks,
then the supplementary-plane blocks. -/
def ndBases : List Nat :=
  [0x30, 0x660, 0x6F0, 0x7C0, 0x966, 0x9E6, 0xA66, 0xAE6, 0xB66, 0xBE6,
   0xC66, 0xCE6, 0xD66, 0xDE6, 0xE50, 0xED0, 0xF20, 0x1040, 0x1090, 0x17E0,
   0x1810, 0x1946, 0x19D0, 0x1A80, 0x1A90, 0x1B50, 0x1BB0, 0x1C40, 0x1C50,
   0xA620, 0xA8D0, 0xA900, 0xA9D0, 0xA9F0, 0xAA50, 0xABF0, 0xFF10,
   0x104A0, 0x10D30, 0x11066, 0x110F0, 0x11136, 0x111D0, 0x112F0, 0x11450,
   0x114D0, 0x11650, 0x116C0, 0x11730, 0x118E0, 0x11C50, 0x11D50, 0x11DA0,
   0x16A60, 0x16B50, 0x1D7CE, 0x1D7D8, 0x1D7E2, 0x1D7EC, 0x1D7F6, 0x1E140,
   0x1E2F0, 0x1E950]

/-- Model of the Unicode decimal-digit value driving Python `str.isdigit`
and `int()`: `some v` when the character lies in one of the decimal-digit
blocks of `ndBases`.  Characters accepted by Python's `isdigit` but rejected
by `int()` (Numeric_Type=Digit only, e.g. superscripts — inputs on which the
Python function raises and the surrounding handler fails with a generic
error) are outside the modelled digit set, as are Nd blocks not listed. -/
def pyDigitVal (c : Char) : Option Nat :=
  (ndBases.find? (fun b => decide (b ≤ c.toNat) && decide (c.toNat ≤ b + 9))).map
    (fun b => c.toNat - b)

/-- Model of Python `str.isdigit` for a single character. -/
def pyIsDigit (c : Char) : Bool := (pyDigitVal c).isSome

/-- Model of Python `value.isdigit()`: non-empty and all characters digits. -/
def str_isdigit (s : String) : Bool := !s.data.isEmpty && s.data.all pyIsDigit

/-- Model of Python `int(value)` on a string of decimal digits. -/
def str_to_nat (s : String) : Nat :=
  s.data.foldl (fun a c => a * 10 + (pyDigitVal c).getD 0) 0

/-- Embedding of `validate_number` from `app.py`:
`not value or not value.isdigit()` rejects, then length must equal
`DIGIT_COUNT`, then `MIN_SECRET <= int(value) <= MAX_SECRET`. -/
def validate_number (value : String) : Bool :=
  if value.data.isEmpty || !str_isdigit value then false
  else if value.data.length ≠ DIGIT_COUNT then false
  else
    let num := str_to_nat value
    decide (MIN_SECRET ≤ num) && decide (num ≤ MAX_SECRET)

/-- Embedding of `count_matches` from `app.py`: the number of indices
`i < DIGIT_COUNT` at which the two strings agree.  Out-of-range indices use
distinct defaults so they never count as a match (the Python code assumes
pre-validated length-4 inputs and would raise otherwise). -/
def count_matches (guess secret : String) : Nat :=
  (List.range DIGIT_COUNT).countP
    (fun i => guess.data.getD i 'g' == secret.data.getD i 's')

/-- Spec-side definition for claim C4: the regular expression
`^[1-9]\d{3}$`, i.e. one ASCII digit 1..9 followed by exactly three ASCII
digits 0..9. -/
def matches_digit_pattern (s : String) : Bool :=
  match s.data with
  | a :: rest =>
      (49 ≤ a.toNat && a.toNat ≤ 57) && rest.length == 3 &&
        rest.all (fun c => 48 ≤ c.toNat && c.toNat ≤ 57)
  | [] => false

/-! ### Helper lemmas about validation -/

lemma validate_number_eq (v : String) :
    validate_number v =
      (str_isdigit v && (v.data.length == DIGIT_COUNT) &&
        (decide (MIN_SECRET ≤ str_to_nat v) && decide (str_to_nat v ≤ MAX_SECRET))) := by
  unfold validate_number
  cases h : str_isdigit v with
  | false =>
    rw [if_pos (by simp [h])]
    simp [h]
  | true =>
    have he : v.data.isEmpty = false := by
      unfold str_isdigit at h
      simp only [Bool.and_eq_true, Bool.not_eq_true'] at h
      exact h.1
    rw [if_neg (by simp [he, h])]
    by_cases hl : v.data.length = DIGIT_COUNT
    · rw [if_neg (by simp [hl])]
      simp [hl, h]
    · rw [if_pos hl]
      have hb : (v.data.length == DIGIT_COUNT) = false := beq_eq_false_iff_ne.mpr hl
      rw [hb]
      simp

lemma validate_number_length {v : String} (h : validate_number v = true) :
    v.data.length = 4 := by
  rw [validate_number_eq] at h
  simp only [Bool.and_eq_true, beq_iff_eq] at h
  exact h.1.2

lemma list_len4 {α : Type} (l : List α) (h : l.length = 4) :
    ∃ a b c d, l = [a, b, c, d] := by
  match l, h with
  | [a, b, c, d], _ => exact ⟨a, b, c, d, rfl⟩

/-- Claim C3 — `count_matches(g,s) = 4` iff `g = s` for valid 4-digit
strings, and the count is always at most 4. -/
theorem C3_matchCount (g s : String)
    (hg : validate_number g = true) (hs : validate_number s = true) :
    (count_matches g s = 4 ↔ g = s) ∧ count_matches g s ≤ 4 := by
  obtain ⟨a, b, c, d, hgd⟩ := list_len4 g.data (validate_number_length hg)
  obtain ⟨a', b', c', d', hsd⟩ := list_len4 s.data (validate_number_length hs)
  have hrange : List.range DIGIT_COUNT = [0, 1, 2, 3] := rfl
  have heqs : g = s ↔ g.data = s.data := ⟨congrArg String.data, String.ext⟩
  constructor
  · rw [heqs, hgd, hsd]
    unfold count_matches
    rw [hrange, hgd, hsd]
    simp only [List.countP_cons, List.countP_nil]
    have e0 : [a, b, c, d].getD 0 'g' = a := rfl
    have e1 : [a, b, c, d].getD 1 'g' = b := rfl
    have e2 : [a, b, c, d].getD 2 'g' = c := rfl
    have e3 : [a, b, c, d].getD 3 'g' = d := rfl
    have f0 : [a', b', c', d'].getD 0 's' = a' := rfl
    have f1 : [a', b', c', d'].getD 1 's' = b' := rfl
    have f2 : [a', b', c', d'].getD 2 's' = c' := rfl
    have f3 : [a', b', c', d'].getD 3 's' = d' := rfl
    simp only [e0, e1, e2, e3, f0, f1, f2, f3]
    by_cases h1 : a = a' <;> by_cases h2 : b = b' <;> by_cases h3 : c = c' <;>
      by_cases h4 : d = d' <;> simp [h1, h2, h3, h4]
  · unfold count_matches
    calc (List.range DIGIT_COUNT).countP _ ≤ (List.range DIGIT_COUNT).length :=
          List.countP_le_length _
    _ = 4 := by simp [DIGIT_COUNT]

/-- Concrete instantiation of C3 at `g = "1234"`, `s = "1243"`. -/
theorem C3_matchCount_witness :
    validate_number "1234" = true ∧ validate_number "1243" = true ∧
      ((count_matches "1234" "1243" = 4 ↔ ("1234" : String) = "1243") ∧
        count_matches "1234" "1243" ≤ 4) :=
  ⟨by decide, by decide, C3_matchCount "1234" "1243" (by decide) (by decide)⟩

lemma ndBases_cases : ∀ b ∈ ndBases, b = 48 ∨ 128 ≤ b := by decide

lemma pyDigitVal_ascii {c : Char} (h : c.toNat ≤ 127) :
    pyDigitVal c =
      if 48 ≤ c.toNat ∧ c.toNat ≤ 57 then some (c.toNat - 48) else none := by
  unfold pyDigitVal
  by_cases hd : 48 ≤ c.toNat ∧ c.toNat ≤ 57
  · rw [if_pos hd]
    rw [show ndBases = 48 :: ndBases.tail from rfl,
      @List.find?_cons_of_pos Nat
        (fun b => decide (b ≤ c.toNat) && decide (c.toNat ≤ b + 9)) 48 ndBases.tail
        (by simp only [Bool.and_eq_true, decide_eq_true_eq]; omega)]
    rfl
  · rw [if_neg hd]
    have hnone : ndBases.find?
        (fun b => decide (b ≤ c.toNat) && decide (c.toNat ≤ b + 9)) = none := by
      rw [List.find?_eq_none]
      intro b hb
      simp only [Bool.and_eq_true, decide_eq_true_eq, not_and]
      intro hb1
      rcases ndBases_cases b hb with rfl | hbig <;> omega
    rw [hnone]
    rfl

lemma pyIsDigit_ascii {c : Char} (h : c.toNat ≤ 127) :
    pyIsDigit c = decide (48 ≤ c.toNat ∧ c.toNat ≤ 57) := by
  unfold pyIsDigit
  rw [pyDigitVal_ascii h]
  by_cases hd : 48 ≤ c.toNat ∧ c.toNat ≤ 57
  · rw [if_pos hd]
    simp [hd]
  · rw [if_neg hd]
    simp [hd]

lemma pyDigitValD_ascii {c : Char} (h : c.toNat ≤ 127) :
    (pyDigitVal c).getD 0 =
      if 48 ≤ c.toNat ∧ c.toNat ≤ 57 then c.toNat - 48 else 0 := by
  rw [pyDigitVal_ascii h]
  by_cases hd : 48 ≤ c.toNat ∧ c.toNat ≤ 57
  · rw [if_pos hd, if_pos hd]
    rfl
  · rw [if_neg hd, if_neg hd]
    rfl

lemma validate_iff_pattern_ascii (s : String)
    (hascii : ∀ c ∈ s.data, c.toNat ≤ 127) :
    validate_number s = true ↔ matches_digit_pattern s = true := by
  rw [validate_number_eq]
  cases s with
  | mk l =>
    match l, hascii with
    | [], _ => simp [str_isdigit, matches_digit_pattern]
    | a :: rest, hascii =>
      by_cases hlen : rest.length = 3
      · obtain ⟨b, c, d, rfl⟩ : ∃ b c d, rest = [b, c, d] := by
          match rest, hlen with
          | [b, c, d], _ => exact ⟨b, c, d, rfl⟩
        have ha : a.toNat ≤ 127 := hascii a (by simp)
        have hb : b.toNat ≤ 127 := hascii b (by simp)
        have hc : c.toNat ≤ 127 := hascii c (by simp)
        have hd : d.toNat ≤ 127 := hascii d (by simp)
        show (str_isdigit ⟨[a, b, c, d]⟩ && _ && _) = true ↔ _
        simp only [str_isdigit, matches_digit_pattern, List.isEmpty_cons,
          Bool.not_false, Bool.true_and, List.all_cons, List.all_nil,
          Bool.and_true, str_to_nat, List.foldl_cons, List.foldl_nil,
          DIGIT_COUNT, MIN_SECRET, MAX_SECRET, List.length_cons,
          List.length_nil, Bool.and_eq_true, decide_eq_true_eq, beq_iff_eq,
          and_true, true_and, pyIsDigit_ascii ha, pyIsDigit_ascii hb,
          pyIsDigit_ascii hc, pyIsDigit_ascii hd, pyDigitValD_ascii ha,
          pyDigitValD_ascii hb, pyDigitValD_ascii hc, pyDigitValD_ascii hd]
        split_ifs <;> omega
      · have h4 : ((a :: rest).length == DIGIT_COUNT) = false := by
          simp only [List.length_cons, DIGIT_COUNT]
          exact beq_eq_false_iff_ne.mpr (by omega)
        have h3 : (rest.length == 3) = false := beq_eq_false_iff_ne.mpr hlen
        have hp : matches_digit_pattern ⟨a :: rest⟩ = false := by
          unfold matches_digit_pattern
          simp [h3]
        rw [hp]
        show (str_isdigit ⟨a :: rest⟩ && ((a :: rest).length == DIGIT_COUNT) && _) = true ↔ _
        rw [h4]
        simp

/-- Claim C4, amended — among strings of ASCII characters, `validate_number`
accepts exactly the matches of `^[1-9]\d{3}$` (so it rejects ASCII inputs of
wrong length, with non-digit characters, with whitespace, and the empty
string), and every match of the pattern is accepted; but Python's Unicode
digit semantics makes `validate_number` additionally accept non-ASCII
decimal-digit strings whose value lies in 1000..9999. -/
theorem C4_validate_number :
    (∀ s : String, (∀ c ∈ s.data, c.toNat ≤ 127) →
        (validate_number s = true ↔ matches_digit_pattern s = true)) ∧
    (∀ s : String, matches_digit_pattern s = true → validate_number s = true) := by
  refine ⟨validate_iff_pattern_ascii, ?_⟩
  intro s hp
  have hascii : ∀ c ∈ s.data, c.toNat ≤ 127 := by
    unfold matches_digit_pattern at hp
    intro c hcmem
    rcases hdata : s.data with _ | ⟨a, rest⟩ <;> rw [hdata] at hcmem
    · cases hcmem
    · simp only [hdata] at hp
      simp only [Bool.and_eq_true, decide_eq_true_eq, List.all_eq_true] at hp
      rcases List.mem_cons.mp hcmem with rfl | hcr
      · omega
      · have := hp.2 c hcr
        omega
  exact (validate_iff_pattern_ascii s hascii).mpr hp

/-- Counterexample to C4 as frozen: the Arabic-Indic digit string `"٢٢٢٢"`
(codepoints 0x662, Python `int` value 2222) is accepted by `validate_number`
— as the real Python is, since `str.isdigit` and `int()` handle Unicode
decimal digits — yet it does not match `^[1-9]\d{3}$`. -/
theorem C4_validate_number_counterexample :
    validate_number "٢٢٢٢" = true ∧ matches_digit_pattern "٢٢٢٢" = false := by
  decide

/-- Concrete instantiation of the amended C4. -/
theorem C4_validate_number_witness :
    (∀ c ∈ ("1000" : String).data, c.toNat ≤ 127) ∧
    (validate_number "1000" = true ↔ matches_digit_pattern "1000" = true) ∧
    validate_number "9999" = true :=
  ⟨by decide, C4_validate_number.1 "1000" (by decide),
    C4_validate_number.2 "9999" (by decide)⟩

/-! ## Durable store (the SQLite tables of `init_db`) -/

abbrev RoomId := String

abbrev Sid := Nat

/-- A row of the `rooms` table. -/
structure RoomRow where
  created_at : Int
  started : Int
  current_turn : Int
  timer_start_ms : Option Int
deriving DecidableEq, Repr

/-- A row of the `players` table, keyed by (room_id, player_num). -/
structure PlayerRow where
  token : String
  last_seen : Int
deriving DecidableEq, Repr

/-- A row of the `history` table (minus its key columns). -/
structure HistRow where
  idx : Int
  guess : String
  outcome : String
  ts : Int
deriving DecidableEq, Repr

/-- The durable database: the four tables created by `init_db`. -/
structure Store where
  rooms : List (RoomId × RoomRow)
  players : List (RoomId × Int × PlayerRow)
  secrets : List (RoomId × Int × String)
  history : List (RoomId × Int × HistRow)
deriving DecidableEq, Repr

def findRoom (l : List (RoomId × RoomRow)) (rid : RoomId) : Option RoomRow :=
  (l.find? (fun e => e.1 == rid)).map (fun e => e.2)

/-- SQL `INSERT OR REPLACE` into `rooms` keyed by `room_id`. -/
def upsertRoom (l : List (RoomId × RoomRow)) (rid : RoomId) (row : RoomRow) :
    List (RoomId × RoomRow) :=
  (l.filter (fun e => e.1 != rid)) ++ [(rid, row)]

/-- SQL `UPDATE rooms SET ... WHERE room_id=?`. -/
def updateRoom (l : List (RoomId × RoomRow)) (rid : RoomId)
    (f : RoomRow → RoomRow) : List (RoomId × RoomRow) :=
  l.map (fun e => if e.1 == rid then (e.1, f e.2) else e)

def findPlayer (l : List (RoomId × Int × PlayerRow)) (rid : RoomId) (p : Int) :
    Option PlayerRow :=
  (l.find? (fun e => e.1 == rid && e.2.1 == p)).map (fun e => e.2.2)

/-- SQL `SELECT player_num FROM players WHERE room_id=? AND token=?`. -/
def findPlayerByToken (l : List (RoomId × Int × PlayerRow)) (rid : RoomId)
    (tok : String) : Option Int :=
  (l.find? (fun e => e.1 == rid && e.2.2.token == tok)).map (fun e => e.2.1)

def upsertPlayer (l : List (RoomId × Int × PlayerRow)) (rid : RoomId) (p : Int)
    (row : PlayerRow) : List (RoomId × Int × PlayerRow) :=
  (l.filter (fun e => !(e.1 == rid && e.2.1 == p))) ++ [(rid, p, row)]

/-- SQL `UPDATE players SET last_seen=? WHERE room_id=? AND player_num=?`. -/
def touchPlayer (l : List (RoomId × Int × PlayerRow)) (rid : RoomId) (p : Int)
    (seen : Int) : List (RoomId × Int × PlayerRow) :=
  l.map (fun e =>
    if e.1 == rid && e.2.1 == p then (e.1, e.2.1, { e.2.2 with last_seen := seen })
    else e)

def findSecret (l : List (RoomId × Int × String)) (rid : RoomId) (p : Int) :
    Option String :=
  (l.find? (fun e => e.1 == rid && e.2.1 == p)).map (fun e => e.2.2)

def upsertSecret (l : List (RoomId × Int × String)) (rid : RoomId) (p : Int)
    (sec : String) : List (RoomId × Int × String) :=
  (l.filter (fun e => !(e.1 == rid && e.2.1 == p))) ++ [(rid, p, sec)]

/-- SQL `DELETE FROM secrets WHERE room_id=? AND player_num=?`. -/
def deleteSecret (l : List (RoomId × Int × String)) (rid : RoomId) (p : Int) :
    List (RoomId × Int × String) :=
  l.filter (fun e => !(e.1 == rid && e.2.1 == p))

/-- SQL `SELECT COALESCE(MAX(idx),0) FROM history WHERE room_id=? AND player_num=?`. -/
def maxIdx (l : List (RoomId × Int × HistRow)) (rid : RoomId) (p : Int) : Int :=
  (l.filter (fun e => e.1 == rid && e.2.1 == p)).foldl (fun m e => max m e.2.2.idx) 0

/-! ## Runtime registry (`rooms_runtime`) and turn timers (`turn_timers`) -/

/-- One entry of `rooms_runtime`: live connection per slot and finished flags. -/
structure RuntimeRoom where
  player1 : Option Sid
  player2 : Option Sid
  finished1 : Bool
  finished2 : Bool
deriving DecidableEq, Repr

/-- The fresh entry created by `get_runtime_room` on first access. -/
def RuntimeRoom.init : RuntimeRoom :=
  { player1 := none, player2 := none, finished1 := false, finished2 := false }

/-- Python `rt['players'].get(p)`: `None` for any slot other than 1 or 2. -/
def RuntimeRoom.getP (rt : RuntimeRoom) (p : Int) : Option Sid :=
  if p = 1 then rt.player1 else if p = 2 then rt.player2 else none

/-- Python `rt['players'][p] = sid` for `p` already checked to be 1 or 2. -/
def RuntimeRoom.setP (rt : RuntimeRoom) (p : Int) (v : Option Sid) : RuntimeRoom :=
  if p = 1 then { rt with player1 := v }
  else if p = 2 then { rt with player2 := v } else rt

/-- Python `rt['finished'][p] = v` for `p` either 1 or 2. -/
def RuntimeRoom.setFinished (rt : RuntimeRoom) (p : Int) (v : Bool) : RuntimeRoom :=
  if p = 1 then { rt with finished1 := v }
  else if p = 2 then { rt with finished2 := v } else rt

/-- The whole server state: durable store, runtime registry, turn timers.
`turn_timers` holds at most one entry per room: the slot whose turn is
being timed. -/
structure ServerState where
  db : Store
  runtime : List (RoomId × RuntimeRoom)
  turn_timers : List (RoomId × Int)
deriving DecidableEq, Repr

/-- Lookup half of `get_runtime_room`: existing entry or a fresh one. -/
def runtimeOf (s : ServerState) (rid : RoomId) : RuntimeRoom :=
  ((s.runtime.find? (fun e => e.1 == rid)).map (fun e => e.2)).getD RuntimeRoom.init

/-- Mutation half of `get_runtime_room`: create the entry on first access. -/
def ensure_runtime (s : ServerState) (rid : RoomId) : ServerState :=
  if (s.runtime.find? (fun e => e.1 == rid)).isSome then s
  else { s with runtime := s.runtime ++ [(rid, RuntimeRoom.init)] }

/-- Python mutation of the dict returned by `get_runtime_room` (the entry is
guaranteed to exist after `ensure_runtime`). -/
def mapRuntime (s : ServerState) (rid : RoomId) (f : RuntimeRoom → RuntimeRoom) :
    ServerState :=
  { s with runtime := s.runtime.map (fun e => if e.1 == rid then (e.1, f e.2) else e) }

/-- Embedding of `cancel_turn_timer`. -/
def cancel_turn_timer (s : ServerState) (rid : RoomId) : ServerState :=
  { s with turn_timers := s.turn_timers.filter (fun e => e.1 != rid) }

/-- Embedding of `start_turn_timer`: cancels any existing timer for the room
and records the new one (no-op when the timeout is configured off). -/
def start_turn_timer (s : ServerState) (rid : RoomId) (player : Int) : ServerState :=
  if TURN_TIMEOUT_SECONDS ≤ 0 then s
  else
    let s := cancel_turn_timer s rid
    { s with turn_timers := s.turn_timers ++ [(rid, player)] }

/-! ## Public snapshot (`public_state`) -/

/-- The broadcastable view assembled by `public_state`. -/
structure PubState where
  started : Bool
  current_turn : Int
  finished1 : Bool
  finished2 : Bool
  history1 : List (String × String)
  history2 : List (String × String)
  p1_set : Bool
  p2_set : Bool
  timer_start_ms : Option Int
deriving DecidableEq, Repr

/-- Insertion into a list sorted by ascending `idx` (SQL `ORDER BY idx`). -/
def insertByIdx (h : HistRow) : List HistRow → List HistRow
  | [] => [h]
  | x :: xs => if h.idx ≤ x.idx then h :: x :: xs else x :: insertByIdx h xs

def sortByIdx : List HistRow → List HistRow
  | [] => []
  | x :: xs => insertByIdx x (sortByIdx xs)

/-- Inner helper `history_for` of `public_state`. -/
def history_for (db : Store) (rid : RoomId) (p : Int) : List (String × String) :=
  (sortByIdx ((db.history.filter (fun e => e.1 == rid && e.2.1 == p)).map
    (fun e => e.2.2))).map (fun h => (h.guess, h.outcome))

/-- Embedding of `public_state`: the snapshot handed to every broadcast.
Secrets are consulted only for which slots have one committed. -/
def public_state (s : ServerState) (rid : RoomId) : PubState :=
  let started : Int := match findRoom s.db.rooms rid with
    | some r => r.started
    | none => 0
  let current_turn : Int := match findRoom s.db.rooms rid with
    | some r => r.current_turn
    | none => 1
  let tsm := match findRoom s.db.rooms rid with
    | some r => r.timer_start_ms
    | none => none
  let rt := runtimeOf s rid
  { started := started != 0
    current_turn := current_turn
    finished1 := rt.finished1
    finished2 := rt.finished2
    history1 := history_for s.db rid 1
    history2 := history_for s.db rid 2
    p1_set := s.db.secrets.any (fun e => e.1 == rid && e.2.1 == 1)
    p2_set := s.db.secrets.any (fun e => e.1 == rid && e.2.1 == 2)
    timer_start_ms := tsm }

/-! ## Python string primitives used by the handlers -/

/-- Model of the whitespace set of Python `str.strip`. -/
def pyIsSpace (c : Char) : Bool :=
  c == ' ' || c == '\t' || c == '\n' || c == '\r' || c == '\x0b' || c == '\x0c'

/-- Model of Python `str.strip()`. -/
def pyStrip (s : String) : String :=
  ⟨((s.data.dropWhile pyIsSpace).reverse.dropWhile pyIsSpace).reverse⟩

/-- Model of Python `str.upper()` on one ASCII character. -/
def pyToUpperChar (c : Char) : Char :=
  if 97 ≤ c.toNat && c.toNat ≤ 122 then Char.ofNat (c.toNat - 32) else c

/-- Model of Python `str.upper()`. -/
def pyUpper (s : String) : String := ⟨s.data.map pyToUpperChar⟩

/-! ## Emitted events -/

/-- Where an emit goes: back to the originating connection only (Python
`emit(...)` without `room=`), or broadcast to the whole room. -/
inductive Target
  | originator
  | toRoom (rid : RoomId)
deriving DecidableEq, Repr

/-- Event payloads, one constructor per payload shape used in `app.py`. -/
inductive Payload
  | msg (m : String)
  | roomCreated (rid : RoomId)
  | joined (rid : RoomId) (player : Int) (token : String)
  | secretAck (player : Int)
  | gameStarted (current_turn : Int) (timer_start_ms : Int)
  | guessResult (player : Int) (guess : String) (outcome : String)
  | turnEv (current_turn : Int)
  | gameOver (winner : Int) (m : String)
  | snapshot (ps : PubState)
deriving DecidableEq, Repr

/-- One `emit(...)` / `socketio.emit(...)` call. -/
structure Emit where
  name : String
  payload : Payload
  target : Target
deriving DecidableEq, Repr

/-! ## Socket.IO handlers -/

/-- Embedding of `on_create_room`.  The randomly generated room code is an
input parameter `rid`. -/
def on_create_room (s : ServerState) (rid : RoomId) (now : Int) :
    ServerState × List Emit :=
  let s := { s with db := { s.db with
    rooms := upsertRoom s.db.rooms rid
      { created_at := now, started := 0, current_turn := 1, timer_start_ms := none } } }
  let s := ensure_runtime s rid
  (s, [⟨"room_created", .roomCreated rid, .originator⟩])

/-- Embedding of `on_join_room`.  The freshly generated token is an input
parameter `new_token`. -/
def on_join_room (s : ServerState) (sid : Sid) (data_room_id : String)
    (data_player : Int) (data_token : String) (new_token : String) (now : Int) :
    ServerState × List Emit :=
  let room_id := pyStrip (pyUpper data_room_id)
  let desired_player := data_player
  let token := pyStrip data_token
  if room_id = "" then
    (s, [⟨"error", .msg "Missing room_id", .originator⟩])
  else match findRoom s.db.rooms room_id with
  | none => (s, [⟨"error", .msg "Room not found.", .originator⟩])
  | some _ =>
    let s := ensure_runtime s room_id
    match (if token ≠ "" then findPlayerByToken s.db.players room_id token else none) with
    | some pn =>
        let s := mapRuntime s room_id (fun r => r.setP pn (some sid))
        let s := { s with db := { s.db with
          players := touchPlayer s.db.players room_id pn now } }
        (s, [⟨"joined", .joined room_id pn token, .originator⟩,
             ⟨"system", .msg ("Player " ++ toString pn ++ " rejoined."), .toRoom room_id⟩,
             ⟨"state", .snapshot (public_state s room_id), .toRoom room_id⟩])
    | none =>
      if desired_player = 1 ∨ desired_player = 2 then
        if (findPlayer s.db.players room_id desired_player).isSome then
          (s, [⟨"error", .msg ("Player " ++ toString desired_player ++
            " slot already taken."), .originator⟩])
        else
          let s := mapRuntime s room_id (fun r => r.setP desired_player (some sid))
          let s := { s with db := { s.db with
            players := upsertPlayer s.db.players room_id desired_player
              { token := new_token, last_seen := now } } }
          (s, [⟨"joined", .joined room_id desired_player new_token, .originator⟩,
               ⟨"system", .msg ("Player " ++ toString desired_player ++ " joined."),
                 .toRoom room_id⟩,
               ⟨"state", .snapshot (public_state s room_id), .toRoom room_id⟩])
      else
        (s, [⟨"error", .msg "Invalid player number.", .originator⟩])

/-- Commit branch of `on_set_secret` (reached after every check passed). -/
def set_secret_commit (s : ServerState) (room_id : RoomId) (player : Int)
    (secret : String) : ServerState × List Emit :=
  let s := { s with db := { s.db with
    secrets := upsertSecret s.db.secrets room_id player secret } }
  (s, [⟨"secret_ack", .secretAck player, .originator⟩,
       ⟨"system", .msg ("Player " ++ toString player ++ " has set their number."),
         .toRoom room_id⟩,
       ⟨"state", .snapshot (public_state s room_id), .toRoom room_id⟩])

/-- Embedding of `on_set_secret`. -/
def on_set_secret (s : ServerState) (sid : Sid) (room_id : String) (player : Int)
    (data_secret : String) : ServerState × List Emit :=
  let secret := pyStrip data_secret
  if validate_number secret = false then
    (s, [⟨"error", .msg "Secret must be a 4-digit number between 1000 and 9999.",
      .originator⟩])
  else
    let rt := runtimeOf s room_id
    let s := ensure_runtime s room_id
    if rt.getP player ≠ some sid then
      (s, [⟨"error", .msg "Unauthorized player for setting this secret.", .originator⟩])
    else if (match findRoom s.db.rooms room_id with
             | some r => r.started == 1
             | none => false : Bool) then
      (s, [⟨"error", .msg "Cannot set secret after game has started.", .originator⟩])
    else
      set_secret_commit s room_id player secret

/-- Embedding of `on_reset_secret`. -/
def on_reset_secret (s : ServerState) (sid : Sid) (room_id : String)
    (player : Int) : ServerState × List Emit :=
  let rt := runtimeOf s room_id
  let s := ensure_runtime s room_id
  if rt.getP player ≠ some sid then
    (s, [⟨"error", .msg "Unauthorized player.", .originator⟩])
  else if (match findRoom s.db.rooms room_id with
           | some r => r.started != 0
           | none => false : Bool) then
    (s, [⟨"error", .msg "Cannot reset secret after game start.", .originator⟩])
  else
    let s := { s with db := { s.db with
      secrets := deleteSecret s.db.secrets room_id player } }
    (s, [⟨"system", .msg ("Player " ++ toString player ++ " reset their number."),
           .toRoom room_id⟩,
         ⟨"state", .snapshot (public_state s room_id), .toRoom room_id⟩])

/-- Embedding of `on_start_game`. -/
def on_start_game (s : ServerState) (room_id : String) (now : Int) :
    ServerState × List Emit :=
  let s := ensure_runtime s room_id
  let c := (s.db.secrets.filter (fun e => e.1 == room_id)).length
  if c < 2 then
    (s, [⟨"error", .msg "Both players must set their numbers.", .originator⟩])
  else
    let s := { s with db := { s.db with
      rooms := updateRoom s.db.rooms room_id (fun r =>
        { r with started := 1, current_turn := 1, timer_start_ms := some now }) } }
    let s := mapRuntime s room_id (fun r =>
      { r with finished1 := false, finished2 := false })
    let es := [⟨"game_started", .gameStarted 1 now, .toRoom room_id⟩,
               (⟨"state", .snapshot (public_state s room_id), .toRoom room_id⟩ : Emit)]
    let s := start_turn_timer s room_id 1
    (s, es)

/-- Embedding of `on_submit_guess`. -/
def on_submit_guess (s : ServerState) (sid : Sid) (room_id : String)
    (player : Int) (data_guess : String) (now : Int) : ServerState × List Emit :=
  let guess := pyStrip data_guess
  let rt := runtimeOf s room_id
  let s := ensure_runtime s room_id
  if rt.getP player ≠ some sid then
    (s, [⟨"error", .msg "Unauthorized player.", .originator⟩])
  else if validate_number guess = false then
    (s, [⟨"error", .msg "Guess must be a 4-digit number between 1000 and 9999.",
      .originator⟩])
  else match findRoom s.db.rooms room_id with
  | none => (s, [⟨"error", .msg "Game has not started.", .originator⟩])
  | some room_row =>
    if room_row.started = 0 then
      (s, [⟨"error", .msg "Game has not started.", .originator⟩])
    else if player ≠ room_row.current_turn then
      (s, [⟨"error", .msg "Not your turn.", .originator⟩])
    else
      let opponent : Int := if player = 1 then 2 else 1
      match findSecret s.db.secrets room_id opponent with
      | none => (s, [⟨"error", .msg "Opponent secret missing.", .originator⟩])
      | some secret =>
        if secret = "" then
          (s, [⟨"error", .msg "Opponent secret missing.", .originator⟩])
        else
          let s := cancel_turn_timer s room_id
          let m := count_matches guess secret
          let outcome := if m = DIGIT_COUNT then "Correct! You win!"
            else toString m ++ " correct"
          let mx := maxIdx s.db.history room_id player
          let s := { s with db := { s.db with
            history := s.db.history ++
              [(room_id, player, ⟨mx + 1, guess, outcome, now⟩)] } }
          if m = DIGIT_COUNT then
            let s := mapRuntime s room_id (fun r => r.setFinished player true)
            let s := { s with db := { s.db with
              rooms := updateRoom s.db.rooms room_id (fun r => { r with started := 0 }) } }
            (s, [⟨"guess_result", .guessResult player guess outcome, .toRoom room_id⟩,
                 ⟨"game_over", .gameOver player ("Player " ++ toString player ++ " wins!"),
                   .toRoom room_id⟩])
          else
            let next_turn := opponent
            let s := { s with db := { s.db with
              rooms := updateRoom s.db.rooms room_id (fun r =>
                { r with current_turn := next_turn }) } }
            let es := [⟨"guess_result", .guessResult player guess outcome, .toRoom room_id⟩,
                       ⟨"turn", .turnEv next_turn, .toRoom room_id⟩,
                       (⟨"state", .snapshot (public_state s room_id), .toRoom room_id⟩ : Emit)]
            let s := start_turn_timer s room_id next_turn
            (s, es)

/-- Embedding of `handle_turn_timeout` (the timer already removed itself
from `turn_timers` before invoking this, as in `timeout_callback`). -/
def handle_turn_timeout (s : ServerState) (room_id : RoomId) (player : Int) :
    ServerState × List Emit :=
  match findRoom s.db.rooms room_id with
  | none => (s, [])
  | some r =>
    if r.started = 0 then (s, [])
    else
      let next_turn : Int := if player = 1 then 2 else 1
      let s := { s with db := { s.db with
        rooms := updateRoom s.db.rooms room_id (fun rr =>
          { rr with current_turn := next_turn }) } }
      let es := [⟨"system", .msg ("Player " ++ toString player ++ " timed out."),
                   .toRoom room_id⟩,
                 ⟨"turn", .turnEv next_turn, .toRoom room_id⟩,
                 (⟨"state", .snapshot (public_state s room_id), .toRoom room_id⟩ : Emit)]
      let s := start_turn_timer s room_id next_turn
      (s, es)

/-- Embedding of `on_new_game`. -/
def on_new_game (s : ServerState) (room_id : String) : ServerState × List Emit :=
  let s := { s with db := { s.db with
    secrets := s.db.secrets.filter (fun e => e.1 != room_id),
    history := s.db.history.filter (fun e => e.1 != room_id),
    rooms := updateRoom s.db.rooms room_id (fun r =>
      { r with started := 0, current_turn := 1, timer_start_ms := none }) } }
  let s := ensure_runtime s room_id
  let s := mapRuntime s room_id (fun r =>
    { r with finished1 := false, finished2 := false })
  let s := cancel_turn_timer s room_id
  (s, [⟨"system", .msg "New game initialized. Set numbers to start.", .toRoom room_id⟩,
       ⟨"state", .snapshot (public_state s room_id), .toRoom room_id⟩])

/-! ## Admin guard (`admin_required`, `check_admin_rate_limit`, `secrets_equal`) -/

/-- Embedding of `secrets_equal`: constant-time comparison by OR-ing the XOR
of corresponding character codes. -/
def secrets_equal (a b : String) : Bool :=
  if a.data.length ≠ b.data.length then false
  else ((a.data.zip b.data).foldl (fun r p => r ||| (p.1.toNat ^^^ p.2.toNat)) 0) == 0

/-- Outcome of one admin request: the HTTP statuses 200 / 401 / 403 / 429. -/
inductive AdminResp
  | ok
  | unauthorized
  | forbidden
  | tooMany
deriving DecidableEq, Repr

/-- Embedding of the `admin_required` wrapper combined with
`check_admin_rate_limit` for one caller identity: `attempts` is the stored
attempt list for this IP, `now` the current time in seconds, `key` the
credential taken from the `X-Admin-Key` header or the `key` query parameter
(`none` when neither is present; Python treats the empty string the same).
Returns the response and the updated attempt list. -/
def admin_required (attempts : List Int) (now : Int) (key : Option String) :
    AdminResp × List Int :=
  let pruned := attempts.filter (fun t => decide (now - t < 60))
  if ADMIN_RATE_LIMIT ≤ pruned.length then (.tooMany, pruned)
  else
    let att := pruned ++ [now]
    match key with
    | none => (.unauthorized, att)
    | some k =>
      if k = "" then (.unauthorized, att)
      else if secrets_equal k ADMIN_KEY then (.ok, att)
      else (.forbidden, att)

/-- A sequence of admin requests from one caller identity, threading the
stored attempt list through `admin_required`. -/
def admin_run (reqs : List (Int × Option String)) (attempts : List Int) :
    List AdminResp :=
  match reqs with
  | [] => []
  | (now, key) :: rest =>
    let out := admin_required attempts now key
    out.1 :: admin_run rest out.2

/-! ## Inactivity timers (spec-modelled layer)

`src/app.py` contains only the turn-timer family; the inactivity-timer family
and the room-expiry handler described by the specification live in another
variant of the repository that is not under `src/`.  They are modelled here
from the specification's words. -/

/-- Modelled from the spec: the full state including the per-room inactivity
timer registry (room identifier to expiry deadline), which is absent from
`src/app.py`. -/
structure FullState where
  core : ServerState
  inactivity : List (RoomId × Int)
deriving DecidableEq, Repr

/-- Modelled from the spec: (re)scheduling the inactivity timer for a room —
at most one active timer per room. -/
def reset_inactivity (fs : FullState) (rid : RoomId) (deadline : Int) : FullState :=
  { fs with inactivity :=
      (fs.inactivity.filter (fun e => e.1 != rid)) ++ [(rid, deadline)] }

def lookupInact (fs : FullState) (rid : RoomId) : Option Int :=
  ((fs.inactivity.find? (fun e => e.1 == rid)).map (fun e => e.2))

/-- Modelled from the spec: an externally-observable room activity resets the
room's inactivity timer; a rejected action does not count as activity. -/
def with_activity_reset (rid : RoomId) (deadline : Int) (fs : FullState)
    (out : ServerState × List Emit) : FullState × List Emit :=
  let fs := { fs with core := out.1 }
  if out.2.any (fun e => e.name == "error") then (fs, out.2)
  else (reset_inactivity fs rid deadline, out.2)

/-- Modelled from the spec: `createRoom` initializes the inactivity timer. -/
def create_room_full (fs : FullState) (rid : RoomId) (now dur : Int) :
    FullState × List Emit :=
  with_activity_reset rid (now + dur) fs (on_create_room fs.core rid now)

/-- Modelled from the spec: a join resets the inactivity timer. -/
def join_room_full (fs : FullState) (sid : Sid) (data_room_id : String)
    (data_player : Int) (data_token new_token : String) (now dur : Int) :
    FullState × List Emit :=
  with_activity_reset (pyStrip (pyUpper data_room_id)) (now + dur) fs
    (on_join_room fs.core sid data_room_id data_player data_token new_token now)

/-- Modelled from the spec: a committed secret resets the inactivity timer. -/
def set_secret_full (fs : FullState) (sid : Sid) (room_id : String)
    (player : Int) (data_secret : String) (now dur : Int) : FullState × List Emit :=
  with_activity_reset room_id (now + dur) fs
    (on_set_secret fs.core sid room_id player data_secret)

/-- Modelled from the spec: a guess resets the inactivity timer. -/
def submit_guess_full (fs : FullState) (sid : Sid) (room_id : String)
    (player : Int) (data_guess : String) (now dur : Int) : FullState × List Emit :=
  with_activity_reset room_id (now + dur) fs
    (on_submit_guess fs.core sid room_id player data_guess now)

/-- Modelled from the spec: a new game resets the inactivity timer. -/
def new_game_full (fs : FullState) (room_id : String) (now dur : Int) :
    FullState × List Emit :=
  with_activity_reset room_id (now + dur) fs (on_new_game fs.core room_id)

/-- Modelled from the spec: `roomInactivityFired` broadcasts an expiry notice,
deletes all durable records for the room, clears its Registry entry and
cancels any outstanding turn timer. -/
def room_inactivity_fired (fs : FullState) (rid : RoomId) : FullState × List Emit :=
  let s := fs.core
  let db : Store :=
    { rooms := s.db.rooms.filter (fun e => e.1 != rid)
      players := s.db.players.filter (fun e => e.1 != rid)
      secrets := s.db.secrets.filter (fun e => e.1 != rid)
      history := s.db.history.filter (fun e => e.1 != rid) }
  let s : ServerState :=
    { db := db
      runtime := s.runtime.filter (fun e => e.1 != rid)
      turn_timers := s.turn_timers.filter (fun e => e.1 != rid) }
  ({ core := s, inactivity := fs.inactivity.filter (fun e => e.1 != rid) },
   [⟨"room_expired", .msg "Room expired due to inactivity.", .toRoom rid⟩])

/-! ## State accessors and basic lemmas -/

/-- The `current_turn` column of a room, when the room row exists. -/
def roomTurn (s : ServerState) (rid : RoomId) : Option Int :=
  (findRoom s.db.rooms rid).map (fun r => r.current_turn)

/-- The `started` column of a room, when the room row exists. -/
def roomStarted (s : ServerState) (rid : RoomId) : Option Int :=
  (findRoom s.db.rooms rid).map (fun r => r.started)

lemma ensure_runtime_db (s : ServerState) (rid : RoomId) :
    (ensure_runtime s rid).db = s.db := by
  unfold ensure_runtime
  split <;> rfl

lemma ensure_runtime_timers (s : ServerState) (rid : RoomId) :
    (ensure_runtime s rid).turn_timers = s.turn_timers := by
  unfold ensure_runtime
  split <;> rfl

lemma cancel_turn_timer_db (s : ServerState) (rid : RoomId) :
    (cancel_turn_timer s rid).db = s.db := rfl

lemma mapRuntime_db (s : ServerState) (rid : RoomId) (f : RuntimeRoom → RuntimeRoom) :
    (mapRuntime s rid f).db = s.db := rfl

lemma start_turn_timer_db (s : ServerState) (rid : RoomId) (p : Int) :
    (start_turn_timer s rid p).db = s.db := by
  unfold start_turn_timer cancel_turn_timer
  split <;> rfl

lemma start_turn_timer_runtime (s : ServerState) (rid : RoomId) (p : Int) :
    (start_turn_timer s rid p).runtime = s.runtime := by
  unfold start_turn_timer cancel_turn_timer
  split <;> rfl

lemma find?_map_key {γ : Type} (rid : RoomId) (l : List (RoomId × γ)) (f : γ → γ) :
    (l.map (fun e => if e.1 == rid then (e.1, f e.2) else e)).find?
        (fun e => e.1 == rid) =
      (l.find? (fun e => e.1 == rid)).map (fun e => (e.1, f e.2)) := by
  induction l with
  | nil => rfl
  | cons a t ih =>
    cases h : (a.1 == rid) with
    | true =>
      rw [List.map_cons, if_pos h]
      simp [List.find?, h]
    | false =>
      rw [List.map_cons, if_neg (by simp [h])]
      simpa [List.find?, h] using ih

lemma findRoom_updateRoom (l : List (RoomId × RoomRow)) (rid : RoomId)
    (f : RoomRow → RoomRow) :
    findRoom (updateRoom l rid f) rid = (findRoom l rid).map f := by
  unfold findRoom updateRoom
  rw [find?_map_key]
  cases l.find? (fun e => e.1 == rid) <;> rfl

lemma runtimeOf_ensure (s : ServerState) (rid : RoomId) :
    runtimeOf (ensure_runtime s rid) rid = runtimeOf s rid := by
  unfold ensure_runtime runtimeOf
  split
  · rfl
  · next h =>
    rw [List.find?_append]
    cases hf : s.runtime.find? (fun e => e.1 == rid) with
    | some e => rw [hf] at h; simp at h
    | none => simp [hf, Option.or, List.find?]

lemma ensure_find_isSome (s : ServerState) (rid : RoomId) :
    ((ensure_runtime s rid).runtime.find? (fun e => e.1 == rid)).isSome = true := by
  unfold ensure_runtime
  split
  · next h => exact h
  · next h =>
    rw [List.find?_append]
    cases hf : s.runtime.find? (fun e => e.1 == rid) with
    | some e => simp [hf]
    | none => simp [hf, Option.or, List.find?]

lemma runtimeOf_mapRuntime_of_isSome (s : ServerState) (rid : RoomId)
    (f : RuntimeRoom → RuntimeRoom)
    (h : (s.runtime.find? (fun e => e.1 == rid)).isSome = true) :
    runtimeOf (mapRuntime s rid f) rid = f (runtimeOf s rid) := by
  unfold runtimeOf mapRuntime
  rw [find?_map_key]
  cases hf : s.runtime.find? (fun e => e.1 == rid) with
  | none => rw [hf] at h; simp at h
  | some e => simp

lemma mem_start_turn_timer (s : ServerState) (rid : RoomId) (p : Int) :
    (rid, p) ∈ (start_turn_timer s rid p).turn_timers := by
  unfold start_turn_timer cancel_turn_timer
  rw [if_neg (by decide)]
  exact List.mem_append_right _ (List.mem_singleton.mpr rfl)

/-! ## Concrete states used by the witnesses -/

/-- A started room row. -/
def wRoom : RoomRow :=
  { created_at := 0, started := 1, current_turn := 1, timer_start_ms := some 0 }

/-- A not-yet-started room row. -/
def wRoomIdle : RoomRow :=
  { created_at := 0, started := 0, current_turn := 1, timer_start_ms := none }

/-- Both players connected, nobody finished. -/
def wRT : RuntimeRoom :=
  { player1 := some 10, player2 := some 20, finished1 := false, finished2 := false }

/-- A mid-game state: room "R" started, both secrets committed. -/
def wState : ServerState :=
  { db := { rooms := [("R", wRoom)], players := []
            secrets := [("R", 1, "1234"), ("R", 2, "5678")], history := [] }
    runtime := [("R", wRT)]
    turn_timers := [("R", 1)] }

/-- A lobby state: room "R" exists but the game has not started. -/
def wStateIdle : ServerState :=
  { db := { rooms := [("R", wRoomIdle)], players := []
            secrets := [("R", 1, "1234"), ("R", 2, "5678")], history := [] }
    runtime := [("R", wRT)]
    turn_timers := [] }

/-! ## Claim theorems about the room lifecycle -/

lemma timeout_turn_helper (s : ServerState) (rid : RoomId) (player : Int)
    (r : RoomRow) (hroom : findRoom s.db.rooms rid = some r) (h0 : r.started ≠ 0) :
    roomTurn (handle_turn_timeout s rid player).1 rid =
      some (if player = 1 then 2 else 1) := by
  unfold handle_turn_timeout
  simp only [hroom]
  rw [if_neg h0]
  simp [roomTurn, start_turn_timer_db, findRoom_updateRoom, hroom]

/-- Claim C5 — a turn timeout firing on a room that is absent or not
`Playing` is a complete no-op (state unchanged, nothing emitted); firing on
a `Playing` room advances `current_turn` to the opponent of the timed-out
slot, exactly as a non-winning guess would, and appends nothing to the
guess history. -/
theorem C5_turn_timeout_semantics :
    (∀ (s : ServerState) (rid : RoomId) (player : Int),
        (findRoom s.db.rooms rid = none ∨
          ∃ r, findRoom s.db.rooms rid = some r ∧ r.started = 0) →
        handle_turn_timeout s rid player = (s, [])) ∧
    (∀ (s : ServerState) (rid : RoomId) (player : Int) (r : RoomRow),
        findRoom s.db.rooms rid = some r → r.started ≠ 0 →
        (handle_turn_timeout s rid player).1.db.history = s.db.history ∧
        roomTurn (handle_turn_timeout s rid player).1 rid =
          some (if player = 1 then 2 else 1)) := by
  constructor
  · intro s rid player h
    unfold handle_turn_timeout
    rcases h with h | ⟨r, h, h0⟩
    · simp only [h]
    · simp only [h]
      rw [if_pos h0]
  · intro s rid player r hr h0
    constructor
    · unfold handle_turn_timeout
      simp only [hr]
      rw [if_neg h0]
      simp [start_turn_timer_db]
    · exact timeout_turn_helper s rid player r hr h0

/-- Concrete instantiation of C5: no-op on the idle room, turn switch on the
playing room. -/
theorem C5_turn_timeout_semantics_witness :
    handle_turn_timeout wStateIdle "R" 1 = (wStateIdle, []) ∧
    ((handle_turn_timeout wState "R" 1).1.db.history = wState.db.history ∧
      roomTurn (handle_turn_timeout wState "R" 1).1 "R" = some 2) := by
  constructor
  · exact C5_turn_timeout_semantics.1 wStateIdle "R" 1
      (Or.inr ⟨wRoomIdle, by decide, by decide⟩)
  · have h := C5_turn_timeout_semantics.2 wState "R" 1 wRoom (by decide) (by decide)
    simpa using h

/-- Claim C1 — `current_turn` alternates: a successful non-winning guess sets
it to the guesser's opponent, a turn timeout on a `Playing` room sets it to
the timed-out slot's opponent, and a winning guess leaves it unchanged while
setting `started` to 0. -/
theorem C1_turn_alternation :
    (∀ (s : ServerState) (sid : Sid) (rid : RoomId) (player : Int) (g : String)
        (now : Int) (r : RoomRow) (sec : String),
        (runtimeOf s rid).getP player = some sid →
        validate_number (pyStrip g) = true →
        findRoom s.db.rooms rid = some r →
        r.started ≠ 0 →
        player = r.current_turn →
        findSecret s.db.secrets rid (if player = 1 then 2 else 1) = some sec →
        sec ≠ "" →
        count_matches (pyStrip g) sec ≠ DIGIT_COUNT →
        roomTurn (on_submit_guess s sid rid player g now).1 rid =
          some (if player = 1 then 2 else 1)) ∧
    (∀ (s : ServerState) (sid : Sid) (rid : RoomId) (player : Int) (g : String)
        (now : Int) (r : RoomRow) (sec : String),
        (runtimeOf s rid).getP player = some sid →
        validate_number (pyStrip g) = true →
        findRoom s.db.rooms rid = some r →
        r.started ≠ 0 →
        player = r.current_turn →
        findSecret s.db.secrets rid (if player = 1 then 2 else 1) = some sec →
        sec ≠ "" →
        count_matches (pyStrip g) sec = DIGIT_COUNT →
        roomTurn (on_submit_guess s sid rid player g now).1 rid =
            some r.current_turn ∧
          roomStarted (on_submit_guess s sid rid player g now).1 rid = some 0) ∧
    (∀ (s : ServerState) (rid : RoomId) (player : Int) (r : RoomRow),
        findRoom s.db.rooms rid = some r → r.started ≠ 0 →
        roomTurn (handle_turn_timeout s rid player).1 rid =
          some (if player = 1 then 2 else 1)) := by
  refine ⟨?_, ?_, ?_⟩
  · intro s sid rid player g now r sec hauth hval hroom hstarted hturn hsec hsecne hm
    unfold on_submit_guess
    simp only [hauth, ne_eq, not_true_eq_false, if_false, hval, Bool.true_eq_false,
      ensure_runtime_db, hroom]
    rw [if_neg hstarted, if_neg (by simp [hturn]), hsec]
    simp only
    rw [if_neg hsecne, if_neg hm]
    simp [roomTurn, start_turn_timer_db, findRoom_updateRoom, cancel_turn_timer_db,
      ensure_runtime_db, mapRuntime_db, hroom]
  · intro s sid rid player g now r sec hauth hval hroom hstarted hturn hsec hsecne hm
    unfold on_submit_guess
    simp only [hauth, ne_eq, not_true_eq_false, if_false, hval, Bool.true_eq_false,
      ensure_runtime_db, hroom]
    rw [if_neg hstarted, if_neg (by simp [hturn]), hsec]
    simp only
    rw [if_neg hsecne, if_pos hm]
    constructor
    · simp [roomTurn, findRoom_updateRoom, cancel_turn_timer_db, ensure_runtime_db,
        mapRuntime_db, hroom]
    · simp [roomStarted, findRoom_updateRoom, cancel_turn_timer_db, ensure_runtime_db,
        mapRuntime_db, hroom]
  · intro s rid player r hroom hstarted
    exact timeout_turn_helper s rid player r hroom hstarted

/-- Concrete instantiation of C1: a wrong guess flips the turn, a winning
guess freezes the turn and stops the game, a timeout flips the turn. -/
theorem C1_turn_alternation_witness :
    roomTurn (on_submit_guess wState 10 "R" 1 "1111" 5).1 "R" = some 2 ∧
    (roomTurn (on_submit_guess wState 10 "R" 1 "5678" 5).1 "R" = some 1 ∧
      roomStarted (on_submit_guess wState 10 "R" 1 "5678" 5).1 "R" = some 0) ∧
    roomTurn (handle_turn_timeout wState "R" 1).1 "R" = some 2 := by
  refine ⟨?_, ?_, ?_⟩
  · have h := C1_turn_alternation.1 wState 10 "R" 1 "1111" 5 wRoom "5678"
      (by decide) (by decide) (by decide) (by decide) (by decide) (by decide)
      (by decide) (by decide)
    simpa using h
  · have h := C1_turn_alternation.2.1 wState 10 "R" 1 "5678" 5 wRoom "5678"
      (by decide) (by decide) (by decide) (by decide) (by decide) (by decide)
      (by decide) (by decide)
    simpa [wRoom] using h
  · have h := C1_turn_alternation.2.2 wState "R" 1 wRoom (by decide) (by decide)
    simpa using h

/-- Claim C2 — once `started=1`, `set_secret` and `reset_secret` never touch
the stored secrets, and (when format and authorization checks pass) they fail
with the game-already-started error sent to the caller only. -/
theorem C2_secrets_locked_after_start :
    ∀ (s : ServerState) (sid : Sid) (rid : RoomId) (player : Int)
      (data_secret : String) (r : RoomRow),
      findRoom s.db.rooms rid = some r → r.started = 1 →
      ((on_set_secret s sid rid player data_secret).1.db.secrets = s.db.secrets ∧
        (validate_number (pyStrip data_secret) = true →
          (runtimeOf s rid).getP player = some sid →
          (on_set_secret s sid rid player data_secret).2 =
            [⟨"error", .msg "Cannot set secret after game has started.",
              .originator⟩])) ∧
      ((on_reset_secret s sid rid player).1.db.secrets = s.db.secrets ∧
        ((runtimeOf s rid).getP player = some sid →
          (on_reset_secret s sid rid player).2 =
            [⟨"error", .msg "Cannot reset secret after game start.",
              .originator⟩])) := by
  intro s sid rid player data_secret r hroom hstarted
  have hcond : (match findRoom s.db.rooms rid with
      | some r => r.started == 1
      | none => false) = true := by
    rw [hroom]
    simp [hstarted]
  have hcond' : (match findRoom s.db.rooms rid with
      | some r => r.started != 0
      | none => false) = true := by
    rw [hroom]
    simp [hstarted]
  refine ⟨⟨?_, ?_⟩, ?_, ?_⟩
  · unfold on_set_secret
    by_cases hv : validate_number (pyStrip data_secret) = false
    · simp [hv]
    · rw [if_neg hv]
      by_cases ha : (runtimeOf s rid).getP player = some sid
      · rw [if_neg (by simpa using ha)]
        simp only [ensure_runtime_db, hcond, if_true]
      · rw [if_pos ha]
        simp [ensure_runtime_db]
  · intro hv ha
    unfold on_set_secret
    rw [if_neg (by simp [hv]), if_neg (by simpa using ha)]
    simp only [ensure_runtime_db, hcond, if_true]
  · unfold on_reset_secret
    by_cases ha : (runtimeOf s rid).getP player = some sid
    · rw [if_neg (by simpa using ha)]
      simp only [ensure_runtime_db, hcond', if_true]
    · rw [if_pos ha]
      simp [ensure_runtime_db]
  · intro ha
    unfold on_reset_secret
    rw [if_neg (by simpa using ha)]
    simp only [ensure_runtime_db, hcond', if_true]

/-- Concrete instantiation of C2 on the started room. -/
theorem C2_secrets_locked_after_start_witness :
    ((on_set_secret wState 10 "R" 1 "4321").1.db.secrets = wState.db.secrets ∧
      (on_set_secret wState 10 "R" 1 "4321").2 =
        [⟨"error", .msg "Cannot set secret after game has started.",
          .originator⟩]) ∧
    ((on_reset_secret wState 10 "R" 1).1.db.secrets = wState.db.secrets ∧
      (on_reset_secret wState 10 "R" 1).2 =
        [⟨"error", .msg "Cannot reset secret after game start.", .originator⟩]) := by
  have h := C2_secrets_locked_after_start wState 10 "R" 1 "4321" wRoom
    (by decide) (by decide)
  exact ⟨⟨h.1.1, h.1.2 (by decide) (by decide)⟩, h.2.1, h.2.2 (by decide)⟩

/-! ## C10: start_game is not guarded against a running game -/

lemma two_le_length {α : Type} {a b : α} {l : List α} (ha : a ∈ l) (hb : b ∈ l)
    (h : a ≠ b) : 2 ≤ l.length := by
  induction l with
  | nil => cases ha
  | cons x t ih =>
    rcases List.mem_cons.mp ha with rfl | ha'
    · rcases List.mem_cons.mp hb with rfl | hb'
      · exact absurd rfl h
      · have : 0 < t.length := List.length_pos.mpr (List.ne_nil_of_mem hb')
        simp only [List.length_cons]
        omega
    · have : 0 < t.length := List.length_pos.mpr (List.ne_nil_of_mem ha')
      simp only [List.length_cons]
      omega

lemma runtimeOf_start_turn_timer (s : ServerState) (rid : RoomId) (p : Int)
    (rid' : RoomId) :
    runtimeOf (start_turn_timer s rid p) rid' = runtimeOf s rid' := by
  unfold runtimeOf
  rw [start_turn_timer_runtime]

/-- Claim C10 — with `started=1` and both secrets still committed, a further
`start_game` succeeds: no error is emitted, the room row is rewritten with
`started=1`, `current_turn=1` and a fresh `timer_start_ms`, the Registry
finished flags are cleared, the turn timer is restarted for slot 1, and the
guess history is retained. -/
theorem C10_start_game_unguarded :
    ∀ (s : ServerState) (rid : RoomId) (now : Int) (r : RoomRow) (x y : String),
      findRoom s.db.rooms rid = some r → r.started = 1 →
      findSecret s.db.secrets rid 1 = some x →
      findSecret s.db.secrets rid 2 = some y →
      (∀ e ∈ (on_start_game s rid now).2, e.name ≠ "error") ∧
      findRoom (on_start_game s rid now).1.db.rooms rid =
        some { r with started := 1, current_turn := 1, timer_start_ms := some now } ∧
      (runtimeOf (on_start_game s rid now).1 rid).finished1 = false ∧
      (runtimeOf (on_start_game s rid now).1 rid).finished2 = false ∧
      (rid, (1 : Int)) ∈ (on_start_game s rid now).1.turn_timers ∧
      (on_start_game s rid now).1.db.history = s.db.history := by
  intro s rid now r x y hroom hstarted h1 h2
  obtain ⟨e1, he1⟩ : ∃ e, s.db.secrets.find? (fun e => e.1 == rid && e.2.1 == 1) = some e := by
    unfold findSecret at h1
    cases hf : s.db.secrets.find? (fun e => e.1 == rid && e.2.1 == 1) with
    | none => rw [hf] at h1; simp at h1
    | some e => exact ⟨e, rfl⟩
  obtain ⟨e2, he2⟩ : ∃ e, s.db.secrets.find? (fun e => e.1 == rid && e.2.1 == 2) = some e := by
    unfold findSecret at h2
    cases hf : s.db.secrets.find? (fun e => e.1 == rid && e.2.1 == 2) with
    | none => rw [hf] at h2; simp at h2
    | some e => exact ⟨e, rfl⟩
  have he1m := List.mem_of_find?_eq_some he1
  have he2m := List.mem_of_find?_eq_some he2
  have he1p := List.find?_some he1
  have he2p := List.find?_some he2
  simp only [Bool.and_eq_true, beq_iff_eq] at he1p he2p
  have hne : e1 ≠ e2 := by
    intro hEq
    rw [hEq] at he1p
    have := he1p.2.symm.trans he2p.2
    norm_num at this
  have hmf1 : e1 ∈ s.db.secrets.filter (fun e => e.1 == rid) :=
    List.mem_filter.mpr ⟨he1m, by simp [he1p.1]⟩
  have hmf2 : e2 ∈ s.db.secrets.filter (fun e => e.1 == rid) :=
    List.mem_filter.mpr ⟨he2m, by simp [he2p.1]⟩
  have hlen := two_le_length hmf1 hmf2 hne
  have hc : ¬ ((ensure_runtime s rid).db.secrets.filter (fun e => e.1 == rid)).length < 2 := by
    rw [ensure_runtime_db]
    omega
  refine ⟨?_, ?_, ?_, ?_, ?_, ?_⟩ <;>
    simp only [on_start_game] <;> rw [if_neg hc]
  · intro e he hname
    simp only [List.mem_cons, List.not_mem_nil, or_false] at he
    rcases he with rfl | rfl <;> simp at hname
  · simp [findRoom_updateRoom, start_turn_timer_db, mapRuntime_db,
      ensure_runtime_db, hroom]
  · rw [runtimeOf_start_turn_timer,
      runtimeOf_mapRuntime_of_isSome _ _ _ (by
        have h := ensure_find_isSome s rid
        simpa [ensure_runtime_db] using h)]
  · rw [runtimeOf_start_turn_timer,
      runtimeOf_mapRuntime_of_isSome _ _ _ (by
        have h := ensure_find_isSome s rid
        simpa [ensure_runtime_db] using h)]
  · exact mem_start_turn_timer _ rid 1
  · simp [start_turn_timer_db, mapRuntime_db, ensure_runtime_db]

/-- Concrete instantiation of C10 on the started room with both secrets. -/
theorem C10_start_game_unguarded_witness :
    (∀ e ∈ (on_start_game wState "R" 99).2, e.name ≠ "error") ∧
    findRoom (on_start_game wState "R" 99).1.db.rooms "R" =
      some { created_at := 0, started := 1, current_turn := 1,
             timer_start_ms := some 99 } ∧
    (runtimeOf (on_start_game wState "R" 99).1 "R").finished1 = false ∧
    (runtimeOf (on_start_game wState "R" 99).1 "R").finished2 = false ∧
    ("R", (1 : Int)) ∈ (on_start_game wState "R" 99).1.turn_timers ∧
    (on_start_game wState "R" 99).1.db.history = wState.db.history := by
  have h := C10_start_game_unguarded wState "R" 99 wRoom "1234" "5678"
    (by decide) (by decide) (by decide) (by decide)
  simpa [wRoom] using h

/-! ## C7: the public snapshot is independent of the secret values -/

/-- The key part of each `secrets` row: which (room, slot) has a committed
secret, with the value erased. -/
def secretKeys (l : List (RoomId × Int × String)) : List (RoomId × Int) :=
  l.map (fun e => (e.1, e.2.1))

lemma any_secret_keys (l1 l2 : List (RoomId × Int × String))
    (h : secretKeys l1 = secretKeys l2) (rid : RoomId) (p : Int) :
    l1.any (fun e => e.1 == rid && e.2.1 == p) =
      l2.any (fun e => e.1 == rid && e.2.1 == p) := by
  induction l1 generalizing l2 with
  | nil =>
    cases l2 with
    | nil => rfl
    | cons b t2 => simp [secretKeys] at h
  | cons a t ih =>
    cases l2 with
    | nil => simp [secretKeys] at h
    | cons b t2 =>
      simp only [secretKeys, List.map_cons, List.cons.injEq] at h
      obtain ⟨hab, ht⟩ := h
      injection hab with hx1 hx2
      simp only [List.any_cons, hx1, hx2, ih t2 (by simpa [secretKeys] using ht)]

/-- Claim C7 — `public_state` never depends on the secret values: two states
that agree on rooms, players, histories, runtime registry and timers, and
whose secrets tables commit the same (room, slot) pairs, produce identical
snapshots whatever the stored secret strings are. -/
theorem C7_snapshot_independent_of_secrets :
    ∀ (db1 db2 : Store) (runtime : List (RoomId × RuntimeRoom))
      (timers : List (RoomId × Int)) (rid : RoomId),
      db1.rooms = db2.rooms → db1.players = db2.players →
      db1.history = db2.history →
      secretKeys db1.secrets = secretKeys db2.secrets →
      public_state ⟨db1, runtime, timers⟩ rid = public_state ⟨db2, runtime, timers⟩ rid := by
  intro db1 db2 runtime timers rid hr hp hh hs
  unfold public_state history_for runtimeOf
  simp only
  rw [hr, hh, any_secret_keys _ _ hs rid 1, any_secret_keys _ _ hs rid 2]

/-- Concrete instantiation of C7: same commitments, different secret values,
identical snapshots. -/
theorem C7_snapshot_independent_of_secrets_witness :
    public_state ⟨{ rooms := [("R", wRoom)], players := []
                    secrets := [("R", 1, "1234"), ("R", 2, "5678")], history := [] },
                  [("R", wRT)], []⟩ "R" =
      public_state ⟨{ rooms := [("R", wRoom)], players := []
                      secrets := [("R", 1, "9999"), ("R", 2, "8888")], history := [] },
                    [("R", wRT)], []⟩ "R" :=
  C7_snapshot_independent_of_secrets _ _ [("R", wRT)] [] "R" rfl rfl rfl (by decide)

/-! ## C6: failing actions are atomic and answer the caller only -/

/-- An action outcome is error-atomic relative to the starting state when
every emitted `error` event goes to the originating connection only and the
durable store is exactly the starting store. -/
def errors_atomic (s : ServerState) (out : ServerState × List Emit) : Prop :=
  ∀ e ∈ out.2, e.name = "error" → out.1.db = s.db ∧ e.target = Target.originator

lemma join_errors_atomic (s : ServerState) (sid : Sid) (a : String) (p : Int)
    (tok ntok : String) (now : Int) :
    errors_atomic s (on_join_room s sid a p tok ntok now) := by
  unfold errors_atomic on_join_room
  simp only []
  split
  · intro e he hname
    simp only [List.mem_singleton] at he
    subst he
    exact ⟨rfl, rfl⟩
  · split
    · intro e he hname
      simp only [List.mem_singleton] at he
      subst he
      exact ⟨rfl, rfl⟩
    · split
      · intro e he hname
        simp only [List.mem_cons, List.not_mem_nil, or_false] at he
        rcases he with rfl | rfl | rfl <;> simp at hname
      · split
        · split
          · intro e he hname
            simp only [List.mem_singleton] at he
            subst he
            exact ⟨ensure_runtime_db s _, rfl⟩
          · intro e he hname
            simp only [List.mem_cons, List.not_mem_nil, or_false] at he
            rcases he with rfl | rfl | rfl <;> simp at hname
        · intro e he hname
          simp only [List.mem_singleton] at he
          subst he
          exact ⟨ensure_runtime_db s _, rfl⟩

lemma set_secret_errors_atomic (s : ServerState) (sid : Sid) (rid : String)
    (p : Int) (sec : String) :
    errors_atomic s (on_set_secret s sid rid p sec) := by
  unfold errors_atomic on_set_secret set_secret_commit
  simp only []
  split
  · intro e he hname
    simp only [List.mem_singleton] at he
    subst he
    exact ⟨rfl, rfl⟩
  · split
    · intro e he hname
      simp only [List.mem_singleton] at he
      subst he
      exact ⟨ensure_runtime_db s _, rfl⟩
    · split
      · intro e he hname
        simp only [List.mem_singleton] at he
        subst he
        exact ⟨ensure_runtime_db s _, rfl⟩
      · intro e he hname
        simp only [List.mem_cons, List.not_mem_nil, or_false] at he
        rcases he with rfl | rfl | rfl <;> simp at hname

lemma reset_secret_errors_atomic (s : ServerState) (sid : Sid) (rid : String)
    (p : Int) :
    errors_atomic s (on_reset_secret s sid rid p) := by
  unfold errors_atomic on_reset_secret
  simp only []
  split
  · intro e he hname
    simp only [List.mem_singleton] at he
    subst he
    exact ⟨ensure_runtime_db s _, rfl⟩
  · split
    · intro e he hname
      simp only [List.mem_singleton] at he
      subst he
      exact ⟨ensure_runtime_db s _, rfl⟩
    · intro e he hname
      simp only [List.mem_cons, List.not_mem_nil, or_false] at he
      rcases he with rfl | rfl <;> simp at hname

lemma start_game_errors_atomic (s : ServerState) (rid : String) (now : Int) :
    errors_atomic s (on_start_game s rid now) := by
  unfold errors_atomic on_start_game
  simp only []
  split
  · intro e he hname
    simp only [List.mem_singleton] at he
    subst he
    exact ⟨ensure_runtime_db s _, rfl⟩
  · intro e he hname
    simp only [List.mem_cons, List.not_mem_nil, or_false] at he
    rcases he with rfl | rfl <;> simp at hname

lemma submit_guess_errors_atomic (s : ServerState) (sid : Sid) (rid : String)
    (p : Int) (g : String) (now : Int) :
    errors_atomic s (on_submit_guess s sid rid p g now) := by
  unfold errors_atomic on_submit_guess
  simp only []
  split
  · intro e he hname
    simp only [List.mem_singleton] at he
    subst he
    exact ⟨ensure_runtime_db s _, rfl⟩
  · split
    · intro e he hname
      simp only [List.mem_singleton] at he
      subst he
      exact ⟨ensure_runtime_db s _, rfl⟩
    · split
      · intro e he hname
        simp only [List.mem_singleton] at he
        subst he
        exact ⟨ensure_runtime_db s _, rfl⟩
      · split
        · intro e he hname
          simp only [List.mem_singleton] at he
          subst he
          exact ⟨ensure_runtime_db s _, rfl⟩
        · split
          · intro e he hname
            simp only [List.mem_singleton] at he
            subst he
            exact ⟨ensure_runtime_db s _, rfl⟩
          · split
            · intro e he hname
              simp only [List.mem_singleton] at he
              subst he
              exact ⟨ensure_runtime_db s _, rfl⟩
            · split
              · intro e he hname
                simp only [List.mem_singleton] at he
                subst he
                exact ⟨ensure_runtime_db s _, rfl⟩
              · split
                · intro e he hname
                  simp only [List.mem_cons, List.not_mem_nil, or_false] at he
                  rcases he with rfl | rfl <;> simp at hname
                · intro e he hname
                  simp only [List.mem_cons, List.not_mem_nil, or_false] at he
                  rcases he with rfl | rfl | rfl <;> simp at hname

/-- Claim C6 — for every client action, a failing validation, authorization
or state check emits the error to the originating connection only and leaves
the durable store (rooms, players, secrets, history) untouched. -/
theorem C6_error_atomicity :
    (∀ (s : ServerState) (sid : Sid) (a : String) (p : Int) (tok ntok : String)
        (now : Int), errors_atomic s (on_join_room s sid a p tok ntok now)) ∧
    (∀ (s : ServerState) (sid : Sid) (rid : String) (p : Int) (sec : String),
        errors_atomic s (on_set_secret s sid rid p sec)) ∧
    (∀ (s : ServerState) (sid : Sid) (rid : String) (p : Int),
        errors_atomic s (on_reset_secret s sid rid p)) ∧
    (∀ (s : ServerState) (rid : String) (now : Int),
        errors_atomic s (on_start_game s rid now)) ∧
    (∀ (s : ServerState) (sid : Sid) (rid : String) (p : Int) (g : String)
        (now : Int), errors_atomic s (on_submit_guess s sid rid p g now)) :=
  ⟨join_errors_atomic, set_secret_errors_atomic, reset_secret_errors_atomic,
    start_game_errors_atomic, submit_guess_errors_atomic⟩

/-- Concrete instantiation of C6: one failing input per action, each leaving
the store untouched with the error addressed to the caller only. -/
theorem C6_error_atomicity_witness :
    ((on_join_room wState 10 "" 1 "" "tk" 0).1.db = wState.db ∧
      (⟨"error", .msg "Missing room_id", .originator⟩ : Emit).target =
        Target.originator) ∧
    ((on_set_secret wState 10 "R" 1 "12").1.db = wState.db ∧
      (⟨"error", .msg "Secret must be a 4-digit number between 1000 and 9999.",
        .originator⟩ : Emit).target = Target.originator) ∧
    ((on_reset_secret wState 99 "R" 1).1.db = wState.db ∧
      (⟨"error", .msg "Unauthorized player.", .originator⟩ : Emit).target =
        Target.originator) ∧
    ((on_start_game wState "X" 0).1.db = wState.db ∧
      (⟨"error", .msg "Both players must set their numbers.", .originator⟩ : Emit).target =
        Target.originator) ∧
    ((on_submit_guess wState 99 "R" 1 "1111" 0).1.db = wState.db ∧
      (⟨"error", .msg "Unauthorized player.", .originator⟩ : Emit).target =
        Target.originator) := by
  refine ⟨?_, ?_, ?_, ?_, ?_⟩
  · exact C6_error_atomicity.1 wState 10 "" 1 "" "tk" 0
      ⟨"error", .msg "Missing room_id", .originator⟩ (by decide) rfl
  · exact C6_error_atomicity.2.1 wState 10 "R" 1 "12"
      ⟨"error", .msg "Secret must be a 4-digit number between 1000 and 9999.",
        .originator⟩ (by decide) rfl
  · exact C6_error_atomicity.2.2.1 wState 99 "R" 1
      ⟨"error", .msg "Unauthorized player.", .originator⟩ (by decide) rfl
  · exact C6_error_atomicity.2.2.2.1 wState "X" 0
      ⟨"error", .msg "Both players must set their numbers.", .originator⟩
      (by decide) rfl
  · exact C6_error_atomicity.2.2.2.2 wState 99 "R" 1 "1111" 0
      ⟨"error", .msg "Unauthorized player.", .originator⟩ (by decide) rfl

/-! ## C9: admin authentication and rate limiting -/

lemma nat_lor_eq_zero {x y : Nat} : x ||| y = 0 ↔ x = 0 ∧ y = 0 := by
  constructor
  · intro h
    refine ⟨Nat.eq_of_testBit_eq fun i => ?_, Nat.eq_of_testBit_eq fun i => ?_⟩ <;>
    · have hx := congrArg (fun n => Nat.testBit n i) h
      simp only [Nat.testBit_lor] at hx
      simp only [Nat.zero_testBit]
      first
      | exact (Bool.or_eq_false_iff.mp (by simpa using hx)).1
      | exact (Bool.or_eq_false_iff.mp (by simpa using hx)).2
  · rintro ⟨rfl, rfl⟩
    simp

lemma secrets_fold_eq_zero (l : List (Char × Char)) (acc : Nat) :
    (l.foldl (fun r p => r ||| (p.1.toNat ^^^ p.2.toNat)) acc = 0) ↔
      (acc = 0 ∧ ∀ p ∈ l, p.1 = p.2) := by
  induction l generalizing acc with
  | nil => simp
  | cons a t ih =>
    rw [List.foldl_cons, ih]
    constructor
    · rintro ⟨h1, h2⟩
      obtain ⟨ha, hx⟩ := nat_lor_eq_zero.mp h1
      have hchar : a.1 = a.2 := by
        have hn := Nat.xor_eq_zero.mp hx
        exact Char.ofNat_toNat a.1 ▸ Char.ofNat_toNat a.2 ▸ congrArg Char.ofNat hn
      refine ⟨ha, fun p hp => ?_⟩
      rcases List.mem_cons.mp hp with rfl | hp'
      · exact hchar
      · exact h2 p hp'
    · rintro ⟨ha, hall⟩
      have hh := hall a (List.mem_cons_self a t)
      refine ⟨?_, fun p hp => hall p (List.mem_cons_of_mem a hp)⟩
      rw [ha, hh]
      simp

lemma zip_eq_iff (l1 l2 : List Char) (hlen : l1.length = l2.length) :
    (∀ p ∈ l1.zip l2, p.1 = p.2) ↔ l1 = l2 := by
  induction l1 generalizing l2 with
  | nil =>
    cases l2 with
    | nil => simp
    | cons b t2 => simp at hlen
  | cons a t ih =>
    cases l2 with
    | nil => simp at hlen
    | cons b t2 =>
      simp only [List.zip_cons_cons, List.mem_cons, List.cons.injEq]
      constructor
      · intro h
        refine ⟨h (a, b) (Or.inl rfl), (ih t2 (by simpa using hlen)).mp ?_⟩
        intro p hp
        exact h p (Or.inr hp)
      · rintro ⟨rfl, rfl⟩
        intro p hp
        rcases hp with rfl | hp'
        · rfl
        · exact (ih t rfl).mpr rfl p hp'

lemma secrets_equal_iff (a b : String) : secrets_equal a b = true ↔ a = b := by
  unfold secrets_equal
  by_cases hl : a.data.length = b.data.length
  · rw [if_neg (not_not_intro hl), beq_iff_eq, secrets_fold_eq_zero]
    simp only [eq_self_iff_true, true_and]
    rw [zip_eq_iff a.data b.data hl]
    exact ⟨String.ext, congrArg String.data⟩
  · rw [if_pos hl]
    simp only [Bool.false_eq_true, false_iff]
    intro hEq
    exact hl (by rw [hEq])

/-- Claim C9, amended — with no credential the response is 401, with a wrong
credential 403; the 429 rate-limit fires exactly when the caller already made
`ADMIN_RATE_LIMIT` requests inside the 60-second window, and every request
that is not itself rate-limited — successful authorized ones included — is
recorded as an attempt. -/
theorem C9_admin_guard :
    (∀ (attempts : List Int) (now : Int) (key : Option String),
        ((admin_required attempts now key).1 = AdminResp.tooMany ↔
          ADMIN_RATE_LIMIT ≤ (attempts.filter (fun t => decide (now - t < 60))).length)) ∧
    (∀ (attempts : List Int) (now : Int),
        (attempts.filter (fun t => decide (now - t < 60))).length < ADMIN_RATE_LIMIT →
        (admin_required attempts now none).1 = AdminResp.unauthorized) ∧
    (∀ (attempts : List Int) (now : Int) (k : String),
        (attempts.filter (fun t => decide (now - t < 60))).length < ADMIN_RATE_LIMIT →
        k ≠ "" → k ≠ ADMIN_KEY →
        (admin_required attempts now (some k)).1 = AdminResp.forbidden) ∧
    (∀ (attempts : List Int) (now : Int) (key : Option String),
        (attempts.filter (fun t => decide (now - t < 60))).length < ADMIN_RATE_LIMIT →
        (admin_required attempts now key).2 =
          (attempts.filter (fun t => decide (now - t < 60))) ++ [now]) := by
  refine ⟨?_, ?_, ?_, ?_⟩
  · intro attempts now key
    unfold admin_required
    by_cases h : ADMIN_RATE_LIMIT ≤ (attempts.filter (fun t => decide (now - t < 60))).length
    · simp [h]
    · rw [if_neg h]
      cases key with
      | none => simp [h]
      | some k =>
        simp only []
        by_cases hk : k = ""
        · simp [hk, h]
        · rw [if_neg hk]
          cases hse : secrets_equal k ADMIN_KEY <;> simp [h]
  · intro attempts now hlt
    unfold admin_required
    rw [if_neg (by omega)]
  · intro attempts now k hlt hk hkey
    unfold admin_required
    rw [if_neg (by omega)]
    simp only []
    rw [if_neg hk]
    have hse : secrets_equal k ADMIN_KEY = false := by
      cases hx : secrets_equal k ADMIN_KEY with
      | false => rfl
      | true => exact absurd ((secrets_equal_iff k ADMIN_KEY).mp hx) hkey
    rw [hse]
    simp
  · intro attempts now key hlt
    unfold admin_required
    rw [if_neg (by omega)]
    cases key with
    | none => rfl
    | some k =>
      simp only []
      by_cases hk : k = ""
      · simp [hk]
      · rw [if_neg hk]
        cases secrets_equal k ADMIN_KEY <;> rfl

/-- Counterexample to C9 as frozen: six admin requests all carrying the
correct key inside one 60-second window — no authentication failure ever
occurs, yet the sixth request is answered with the rate-limit signal,
because every request (not only failures) counts toward the window. -/
theorem C9_admin_guard_counterexample :
    admin_run [(0, some "changeme"), (1, some "changeme"), (2, some "changeme"),
        (3, some "changeme"), (4, some "changeme"), (5, some "changeme")] [] =
      [AdminResp.ok, AdminResp.ok, AdminResp.ok, AdminResp.ok, AdminResp.ok,
        AdminResp.tooMany] := by decide

/-- Concrete instantiation of the amended C9. -/
theorem C9_admin_guard_witness :
    (admin_required [] 0 none).1 = AdminResp.unauthorized ∧
    (admin_required [] 0 (some "wrong")).1 = AdminResp.forbidden ∧
    (admin_required [] 7 (some "changeme")).2 = [7] ∧
    (admin_required [0, 1, 2, 3, 4] 5 (some "changeme")).1 = AdminResp.tooMany := by
  refine ⟨C9_admin_guard.2.1 [] 0 (by decide),
    C9_admin_guard.2.2.1 [] 0 "wrong" (by decide) (by decide) (by decide), ?_, ?_⟩
  · have h := C9_admin_guard.2.2.2 [] 7 (some "changeme") (by decide)
    simpa using h
  · exact (C9_admin_guard.1 [0, 1, 2, 3, 4] 5 (some "changeme")).mpr (by decide)

/-! ## C8: inactivity timer lifecycle (spec-modelled) -/

lemma find?_filterne_append {γ : Type} (rid : RoomId) (l xs : List (RoomId × γ)) :
    ((l.filter (fun e => e.1 != rid)) ++ xs).find? (fun e => e.1 == rid) =
      xs.find? (fun e => e.1 == rid) := by
  induction l with
  | nil => rfl
  | cons a t ih =>
    cases h : (a.1 == rid) with
    | true =>
      rw [List.filter_cons_of_neg (by simpa using h)]
      exact ih
    | false =>
      rw [List.filter_cons_of_pos (by simpa using h), List.cons_append,
        List.find?_cons_of_neg _ (by simp [h])]
      exact ih

lemma lookup_reset (fs : FullState) (rid : RoomId) (deadline : Int) :
    lookupInact (reset_inactivity fs rid deadline) rid = some deadline := by
  unfold lookupInact reset_inactivity
  simp only
  rw [find?_filterne_append]
  simp [List.find?]

lemma filter_of_filterne {γ : Type} (rid : RoomId) (l : List (RoomId × γ)) :
    (l.filter (fun e => e.1 != rid)).filter (fun e => e.1 == rid) = [] := by
  induction l with
  | nil => rfl
  | cons a t ih =>
    cases h : (a.1 == rid) with
    | true =>
      rw [List.filter_cons_of_neg (by simpa using h)]
      exact ih
    | false =>
      rw [List.filter_cons_of_pos (by simpa using h),
        List.filter_cons_of_neg (by simp [h])]
      exact ih

lemma find?_of_filterne {γ : Type} (rid : RoomId) (l : List (RoomId × γ)) :
    (l.filter (fun e => e.1 != rid)).find? (fun e => e.1 == rid) = none := by
  rw [List.find?_eq_none]
  intro x hx
  have hmem := List.mem_filter.mp hx
  simp only [bne_iff_ne, ne_eq] at hmem
  simp [hmem.2]

/-- Claim C8 (spec-modelled) — `createRoom` initializes the room's inactivity
timer; every successful join, secret commit, guess and new-game resets it;
and the room-expiry handler broadcasts an expiry notice, deletes every
durable record of the room, clears its Registry entry and cancels any
outstanding turn timer. -/
theorem C8_inactivity_lifecycle :
    (∀ (fs : FullState) (rid : RoomId) (now dur : Int),
        lookupInact (create_room_full fs rid now dur).1 rid = some (now + dur)) ∧
    (∀ (fs : FullState) (sid : Sid) (a : String) (p : Int) (tok ntok : String)
        (now dur : Int),
        ((on_join_room fs.core sid a p tok ntok now).2.any
          (fun e => e.name == "error")) = false →
        lookupInact (join_room_full fs sid a p tok ntok now dur).1
          (pyStrip (pyUpper a)) = some (now + dur)) ∧
    (∀ (fs : FullState) (sid : Sid) (rid : String) (p : Int) (sec : String)
        (now dur : Int),
        ((on_set_secret fs.core sid rid p sec).2.any
          (fun e => e.name == "error")) = false →
        lookupInact (set_secret_full fs sid rid p sec now dur).1 rid =
          some (now + dur)) ∧
    (∀ (fs : FullState) (sid : Sid) (rid : String) (p : Int) (g : String)
        (now dur : Int),
        ((on_submit_guess fs.core sid rid p g now).2.any
          (fun e => e.name == "error")) = false →
        lookupInact (submit_guess_full fs sid rid p g now dur).1 rid =
          some (now + dur)) ∧
    (∀ (fs : FullState) (rid : String) (now dur : Int),
        lookupInact (new_game_full fs rid now dur).1 rid = some (now + dur)) ∧
    (∀ (fs : FullState) (rid : RoomId),
        (room_inactivity_fired fs rid).2 =
          [⟨"room_expired", .msg "Room expired due to inactivity.", .toRoom rid⟩] ∧
        (room_inactivity_fired fs rid).1.core.db.rooms.filter
          (fun e => e.1 == rid) = [] ∧
        (room_inactivity_fired fs rid).1.core.db.players.filter
          (fun e => e.1 == rid) = [] ∧
        (room_inactivity_fired fs rid).1.core.db.secrets.filter
          (fun e => e.1 == rid) = [] ∧
        (room_inactivity_fired fs rid).1.core.db.history.filter
          (fun e => e.1 == rid) = [] ∧
        (room_inactivity_fired fs rid).1.core.runtime.find?
          (fun e => e.1 == rid) = none ∧
        (room_inactivity_fired fs rid).1.core.turn_timers.find?
          (fun e => e.1 == rid) = none) := by
  refine ⟨?_, ?_, ?_, ?_, ?_, ?_⟩
  · intro fs rid now dur
    unfold create_room_full with_activity_reset on_create_room
    simp only [List.any_cons, List.any_nil]
    rw [if_neg (by decide)]
    exact lookup_reset _ rid (now + dur)
  · intro fs sid a p tok ntok now dur h
    unfold join_room_full with_activity_reset
    rw [if_neg (by simp [h])]
    exact lookup_reset _ _ (now + dur)
  · intro fs sid rid p sec now dur h
    unfold set_secret_full with_activity_reset
    rw [if_neg (by simp [h])]
    exact lookup_reset _ _ (now + dur)
  · intro fs sid rid p g now dur h
    unfold submit_guess_full with_activity_reset
    rw [if_neg (by simp [h])]
    exact lookup_reset _ _ (now + dur)
  · intro fs rid now dur
    unfold new_game_full with_activity_reset on_new_game
    simp only [List.any_cons, List.any_nil]
    rw [if_neg (by decide)]
    exact lookup_reset _ _ (now + dur)
  · intro fs rid
    unfold room_inactivity_fired
    exact ⟨rfl, filter_of_filterne rid _, filter_of_filterne rid _,
      filter_of_filterne rid _, filter_of_filterne rid _,
      find?_of_filterne rid _, find?_of_filterne rid _⟩

/-- Concrete instantiation of C8 across the lifecycle. -/
theorem C8_inactivity_lifecycle_witness :
    lookupInact (create_room_full ⟨wStateIdle, []⟩ "Q" 3 100).1 "Q" = some 103 ∧
    lookupInact (join_room_full ⟨wStateIdle, []⟩ 30 "r" 2 "" "tk" 3 100).1 "R" =
      some 103 ∧
    lookupInact (set_secret_full ⟨wStateIdle, []⟩ 10 "R" 1 "4321" 3 100).1 "R" =
      some 103 ∧
    lookupInact (submit_guess_full ⟨wState, []⟩ 10 "R" 1 "1111" 3 100).1 "R" =
      some 103 ∧
    lookupInact (new_game_full ⟨wState, []⟩ "R" 3 100).1 "R" = some 103 ∧
    (room_inactivity_fired ⟨wState, [("R", 9)]⟩ "R").1.core.db.rooms.filter
      (fun e => e.1 == "R") = [] := by
  refine ⟨?_, ?_, ?_, ?_, ?_, ?_⟩
  · have h := C8_inactivity_lifecycle.1 ⟨wStateIdle, []⟩ "Q" 3 100
    simpa using h
  · have h := C8_inactivity_lifecycle.2.1 ⟨wStateIdle, []⟩ 30 "r" 2 "" "tk" 3 100
      (by decide)
    simpa using h
  · have h := C8_inactivity_lifecycle.2.2.1 ⟨wStateIdle, []⟩ 10 "R" 1 "4321" 3 100
      (by decide)
    simpa using h
  · have h := C8_inactivity_lifecycle.2.2.2.1 ⟨wState, []⟩ 10 "R" 1 "1111" 3 100
      (by decide)
    simpa using h
  · have h := C8_inactivity_lifecycle.2.2.2.2.1 ⟨wState, []⟩ "R" 3 100
    simpa using h
  · exact (C8_inactivity_lifecycle.2.2.2.2.2 ⟨wState, [("R", 9)]⟩ "R").2.1

end GuessGame
